import Mathlib

/-!
Shallow embedding of kube-svc-watch (src/main.go): data model, the
exposure classifier, one step of the terminator worker over the
change queue, the Slack notifier guard, the provider check in main,
and the metrics collector.
-/

/-- Marker key for an internal AWS load balancer (src/main.go line 21). -/
def awsLbInternal : String := "service.beta.kubernetes.io/aws-load-balancer-internal"

/-- Expected value of the AWS marker (src/main.go line 22). -/
def awsLbInternalValue : String := "0.0.0.0/0"

/-- Marker key for an internal GCP load balancer (src/main.go line 23). -/
def gcpLbInternal : String := "cloud.google.com/load-balancer-type"

/-- Expected value of the GCP marker (src/main.go line 24). -/
def gcpLbInternalValue : String := "internal"

/-- The v1.ServiceTypeLoadBalancer constant of the Kubernetes API. -/
def ServiceTypeLoadBalancer : String := "LoadBalancer"

/-- The Spec field of a v1.Service; the Go field is named Type. -/
structure ServiceSpec where
  type : String
deriving DecidableEq

/-- A v1.Service as used by src/main.go: identity (Namespace, Name, UID),
the map of metadata pairs (Go map of string to string, modelled as an
association list), and the Spec with the service type. -/
structure Service where
  Namespace : String
  Name : String
  UID : String
  Annotations : List (String × String)
  Spec : ServiceSpec
deriving DecidableEq

/-- Indexing a Go map of string to string: a missing key yields the zero
value, the empty string. Models svc.Annotations[key] in src/main.go. -/
def annotGet (m : List (String × String)) (k : String) : String :=
  match m.find? (fun p => p.1 == k) with
  | some p => p.2
  | none => ""

/-- Lookup without the Go zero-value default, used to state the claims
about presence or absence of a marker key. -/
def annotLookup (m : List (String × String)) (k : String) : Option String :=
  (m.find? (fun p => p.1 == k)).map (fun p => p.2)

/-- The classifier isInternal (src/main.go lines 74-82). The provider
argument models the global provider flag the Go code dereferences. -/
def isInternal (provider : String) (svc : Service) : Bool :=
  if provider == "aws" then
    svc.Spec.type != ServiceTypeLoadBalancer
      || annotGet svc.Annotations awsLbInternal == awsLbInternalValue
  else
    svc.Spec.type != ServiceTypeLoadBalancer
      || annotGet svc.Annotations gcpLbInternal == gcpLbInternalValue

lemma annotGet_eq_iff_lookup (m : List (String × String)) (k v : String)
    (hv : v ≠ "") : (annotGet m k == v) = true ↔ annotLookup m k = some v := by
  unfold annotGet annotLookup
  cases h : m.find? (fun p => p.1 == k) with
  | none => simp [hv, Ne.symm hv]
  | some p => simp

/-- Claim C1: for every service whose Spec.Type is not LoadBalancer, the
classifier isInternal returns internal (true), regardless of the
metadata pairs and regardless of which provider is selected. -/
theorem isInternal_of_not_lb (provider : String) (svc : Service)
    (h : svc.Spec.type ≠ ServiceTypeLoadBalancer) :
    isInternal provider svc = true := by
  unfold isInternal
  have hb : (svc.Spec.type != ServiceTypeLoadBalancer) = true := by
    simpa [bne_iff_ne] using h
  split <;> simp [hb]

/-- A concrete cluster-internal service used as a witness input. -/
def svcCluster : Service :=
  { Namespace := "kube-system", Name := "dns", UID := "uid-0",
    Annotations := [], Spec := { type := "ClusterIP" } }

/-- Witness for C1 at a concrete ClusterIP service. -/
theorem isInternal_of_not_lb_witness : isInternal "aws" svcCluster = true :=
  isInternal_of_not_lb "aws" svcCluster (by decide)

/-- Claim C2: for every service whose Spec.Type is LoadBalancer,
isInternal returns true iff the marker key of the selected provider is
present with exactly the expected value (AWS: awsLbInternal with
awsLbInternalValue; GCP: gcpLbInternal with gcpLbInternalValue); any
other value, or absence of the key, yields false. -/
theorem isInternal_lb_iff_marker (svc : Service)
    (h : svc.Spec.type = ServiceTypeLoadBalancer) :
    (isInternal "aws" svc = true ↔
      annotLookup svc.Annotations awsLbInternal = some awsLbInternalValue)
    ∧ (isInternal "gcp" svc = true ↔
      annotLookup svc.Annotations gcpLbInternal = some gcpLbInternalValue) := by
  have hb : (svc.Spec.type != ServiceTypeLoadBalancer) = false := by
    simp [bne, h]
  constructor
  · rw [← annotGet_eq_iff_lookup svc.Annotations awsLbInternal awsLbInternalValue
      (by decide)]
    simp [isInternal, hb]
  · rw [← annotGet_eq_iff_lookup svc.Annotations gcpLbInternal gcpLbInternalValue
      (by decide)]
    simp [isInternal, hb]

/-- A concrete external load-balanced service with no metadata pairs. -/
def svcExternal : Service :=
  { Namespace := "default", Name := "web", UID := "uid-1",
    Annotations := [], Spec := { type := "LoadBalancer" } }

/-- Witness for C2 at a concrete LoadBalancer service. -/
theorem isInternal_lb_iff_marker_witness :
    (isInternal "aws" svcExternal = true ↔
      annotLookup svcExternal.Annotations awsLbInternal = some awsLbInternalValue)
    ∧ (isInternal "gcp" svcExternal = true ↔
      annotLookup svcExternal.Annotations gcpLbInternal = some gcpLbInternalValue) :=
  isInternal_lb_iff_marker svcExternal (by decide)

/-- Claim C10: for every provider flag value other than aws, isInternal
classifies exactly as it does for gcp: the classifier itself never
rejects a provider, so an unrecognized provider silently follows the
GCP policy. -/
theorem isInternal_nonaws_eq_gcp (provider : String) (svc : Service)
    (h : provider ≠ "aws") :
    isInternal provider svc = isInternal "gcp" svc := by
  unfold isInternal
  have hb : (provider == "aws") = false := by
    simpa [beq_iff_eq] using h
  simp [hb]

/-- Witness for C10 at the provider string azure. -/
theorem isInternal_nonaws_eq_gcp_witness :
    isInternal "azure" svcExternal = isInternal "gcp" svcExternal :=
  isInternal_nonaws_eq_gcp "azure" svcExternal (by decide)

/-- The MetaNamespaceKeyFunc key of a service: namespace/name, or just
the name when the namespace is empty. -/
def metaNamespaceKey (svc : Service) : String :=
  if svc.Namespace == "" then svc.Name
  else svc.Namespace ++ "/" ++ svc.Name

/-- Modelled from the spec: the Change Queue backing the terminator
(cache.NewFIFO at src/main.go line 85) lives in the client-go library,
not under src/. Per the spec it is a per-key coalescing queue: a map
from key to the latest payload plus an ordered list of pending keys. -/
structure FIFO where
  items : List (String × Service)
  queue : List String
deriving DecidableEq

/-- The empty change queue. -/
def FIFO.empty : FIFO := { items := [], queue := [] }

/-- Modelled from the spec: store the latest payload for a key,
replacing any pending payload for that same key. -/
def setItem (items : List (String × Service)) (k : String) (v : Service) :
    List (String × Service) :=
  if (items.find? (fun p => p.1 == k)).isSome then
    items.map (fun p => if p.1 == k then (k, v) else p)
  else
    items ++ [(k, v)]

/-- Modelled from the spec: push coalesces — a new event for an
already-queued key replaces the pending entry rather than appending a
duplicate; a new key is appended to the back of the queue. -/
def FIFO.push (f : FIFO) (svc : Service) : FIFO :=
  let k := metaNamespaceKey svc
  let present := (f.items.find? (fun p => p.1 == k)).isSome
  { items := setItem f.items k svc,
    queue := if present then f.queue else f.queue ++ [k] }

/-- Modelled from the spec: pop removes and returns the front pending
entry together with the remaining queue state. -/
def FIFO.pop (f : FIFO) : Option (Service × FIFO) :=
  match f.queue with
  | [] => none
  | k :: rest =>
    match f.items.find? (fun p => p.1 == k) with
    | none => none
    | some p =>
      some (p.2, { items := f.items.filter (fun q => q.1 != k), queue := rest })

/-- Modelled from the spec: re-insert an entry only when no entry for
its key is already pending (AddIfNotPresent, used on requeue). -/
def FIFO.addIfNotPresent (f : FIFO) (svc : Service) : FIFO :=
  let k := metaNamespaceKey svc
  if (f.items.find? (fun p => p.1 == k)).isSome then f
  else { items := f.items ++ [(k, svc)], queue := f.queue ++ [k] }

/-- Outcome of the conditional delete issued by the terminator closure
(src/main.go line 113): nil error, a precondition (UID) mismatch error,
or a transient error. The Go code receives both failures as a non-nil
error value. -/
inductive DeleteResult where
  | success
  | preconditionFailed
  | transientError
deriving DecidableEq

/-- The closure passed to fifo.Pop (src/main.go lines 94-118): an
internal service is accepted with no action (nil); otherwise the
conditional delete is issued and any non-nil error — precondition
mismatch included — is returned wrapped in cache.ErrRequeue. The
returned option is the error value of the closure. -/
def processFunc (provider : String) (del : DeleteResult) (svc : Service) :
    Option DeleteResult :=
  if isInternal provider svc then none
  else
    match del with
    | DeleteResult.success => none
    | e => some e

/-- Modelled from the spec: cache.FIFO.Pop pops the front entry, runs
the process closure on it, re-adds the entry (AddIfNotPresent) when the
closure returns an ErrRequeue, and returns the item together with the
closure error. -/
def FIFO.popProcess (f : FIFO) (process : Service → Option DeleteResult) :
    Option (FIFO × Service × Option DeleteResult) :=
  match f.pop with
  | none => none
  | some (svc, f1) =>
    match process svc with
    | some e => some (f1.addIfNotPresent svc, svc, some e)
    | none => some (f1, svc, none)

/-- What one iteration of the terminator loop did besides mutating the
queue: the services the notify callback was invoked on, whether the
error branch logged, and whether the deletion branch logged. -/
structure TerminatorOutcome where
  notifyCalls : List Service
  loggedError : Bool
  loggedDeleted : Bool
deriving DecidableEq

/-- One iteration of the terminator loop (src/main.go lines 93-129):
pop and process an entry, then, when the popped service is external,
either log the delete error and continue, or log the deletion and
invoke notify once on the service. Returns none when the queue is
empty (the real Pop blocks), otherwise the new queue state and the
outcome. -/
def terminatorStep (provider : String) (f : FIFO) (del : DeleteResult) :
    Option (FIFO × TerminatorOutcome) :=
  match f.popProcess (processFunc provider del) with
  | none => none
  | some (f1, svc, err) =>
    if !(isInternal provider svc) then
      match err with
      | some _ =>
        some (f1, { notifyCalls := [], loggedError := true, loggedDeleted := false })
      | none =>
        some (f1, { notifyCalls := [svc], loggedError := false, loggedDeleted := true })
    else
      some (f1, { notifyCalls := [], loggedError := false, loggedDeleted := false })

lemma push_empty (svc : Service) :
    FIFO.empty.push svc =
      { items := [(metaNamespaceKey svc, svc)], queue := [metaNamespaceKey svc] } := by
  simp [FIFO.push, FIFO.empty, setItem]

lemma pop_singleton (k : String) (svc : Service) :
    FIFO.pop { items := [(k, svc)], queue := [k] } = some (svc, FIFO.empty) := by
  simp [FIFO.pop, FIFO.empty, List.find?, List.filter]

lemma terminatorStep_push_empty (provider : String) (svc : Service)
    (hx : isInternal provider svc = false) (del : DeleteResult) :
    terminatorStep provider (FIFO.empty.push svc) del =
      match del with
      | DeleteResult.success =>
        some (FIFO.empty,
          { notifyCalls := [svc], loggedError := false, loggedDeleted := true })
      | _ =>
        some (FIFO.empty.push svc,
          { notifyCalls := [], loggedError := true, loggedDeleted := false }) := by
  rw [push_empty]
  cases del <;>
    simp [terminatorStep, FIFO.popProcess, pop_singleton, processFunc, hx,
      FIFO.addIfNotPresent, FIFO.empty, push_empty]

/-- Counterexample to claim C3 at a concrete external service: when the
conditional delete fails with a precondition (UID) mismatch, the
terminator loop does NOT treat it as a success-no-op — the closure
wraps the error in cache.ErrRequeue like any other failure, so the
entry is requeued (the queue again holds the key default/web) and the
error branch logs; only the absence of a notification holds. -/
theorem terminator_precondition_cex :
    (terminatorStep "aws" (FIFO.empty.push svcExternal)
        DeleteResult.preconditionFailed).map
      (fun r => (r.1.queue, r.2.loggedError, r.2.notifyCalls)) =
    some (["default/web"], true, []) := by
  decide

/-- Claim C3 amended: when the delete of an external service fails with
a precondition mismatch, the worker treats it exactly like any other
delete error: it does not notify, but it logs the error and requeues
the entry (the queue state after the step equals the state before). -/
theorem terminator_precondition_requeues (provider : String) (svc : Service)
    (hx : isInternal provider svc = false) :
    terminatorStep provider (FIFO.empty.push svc) DeleteResult.preconditionFailed =
      some (FIFO.empty.push svc,
        { notifyCalls := [], loggedError := true, loggedDeleted := false }) := by
  simpa using terminatorStep_push_empty provider svc hx DeleteResult.preconditionFailed

/-- Witness for the amended C3 at a concrete external service. -/
theorem terminator_precondition_requeues_witness :
    terminatorStep "aws" (FIFO.empty.push svcExternal) DeleteResult.preconditionFailed =
      some (FIFO.empty.push svcExternal,
        { notifyCalls := [], loggedError := true, loggedDeleted := false }) :=
  terminator_precondition_requeues "aws" svcExternal (by decide)

/-- Claim C4: when the delete of an external service fails with a
transient error, the worker requeues the entry (the queue state after
the step equals the state before, so the loop will see it again) and
the notify callback is not invoked for that attempt. -/
theorem terminator_transient_requeues (provider : String) (svc : Service)
    (hx : isInternal provider svc = false) :
    terminatorStep provider (FIFO.empty.push svc) DeleteResult.transientError =
      some (FIFO.empty.push svc,
        { notifyCalls := [], loggedError := true, loggedDeleted := false }) := by
  simpa using terminatorStep_push_empty provider svc hx DeleteResult.transientError

/-- Witness for C4 at a concrete external service. -/
theorem terminator_transient_requeues_witness :
    terminatorStep "aws" (FIFO.empty.push svcExternal) DeleteResult.transientError =
      some (FIFO.empty.push svcExternal,
        { notifyCalls := [], loggedError := true, loggedDeleted := false }) :=
  terminator_transient_requeues "aws" svcExternal (by decide)

/-- Claim C5: when the worker processes an external service and the
conditional delete succeeds, the notify callback is invoked exactly
once, on that service (hence with its namespace and name), the
deletion is logged, and the entry is consumed (queue left empty). -/
theorem terminator_success_notifies_once (provider : String) (svc : Service)
    (hx : isInternal provider svc = false) :
    terminatorStep provider (FIFO.empty.push svc) DeleteResult.success =
      some (FIFO.empty,
        { notifyCalls := [svc], loggedError := false, loggedDeleted := true }) := by
  simpa using terminatorStep_push_empty provider svc hx DeleteResult.success

/-- Witness for C5 at a concrete external service. -/
theorem terminator_success_notifies_once_witness :
    terminatorStep "aws" (FIFO.empty.push svcExternal) DeleteResult.success =
      some (FIFO.empty,
        { notifyCalls := [svcExternal], loggedError := false, loggedDeleted := true }) :=
  terminator_success_notifies_once "aws" svcExternal (by decide)

/-- Claim C6: the change queue keeps at most one pending entry per key —
pushing two events for the same key before any pop leaves a single
pending entry, and exactly one pop yields the later payload (a further
pop of the resulting empty queue yields nothing). -/
theorem fifo_push_coalesces (s1 s2 : Service)
    (hk : metaNamespaceKey s1 = metaNamespaceKey s2) :
    ((FIFO.empty.push s1).push s2).queue.length = 1
    ∧ ((FIFO.empty.push s1).push s2).pop = some (s2, FIFO.empty)
    ∧ FIFO.empty.pop = none := by
  have hstate : (FIFO.empty.push s1).push s2 =
      { items := [(metaNamespaceKey s2, s2)], queue := [metaNamespaceKey s1] } := by
    rw [push_empty]
    simp [FIFO.push, setItem, List.find?, hk]
  refine ⟨by rw [hstate]; rfl, ?_, by simp [FIFO.pop, FIFO.empty]⟩
  rw [hstate, hk, pop_singleton]

/-- A second concrete service with the same key as svcExternal but a
different UID (a recreated incarnation). -/
def svcExternal2 : Service :=
  { Namespace := "default", Name := "web", UID := "uid-2",
    Annotations := [], Spec := { type := "LoadBalancer" } }

/-- Witness for C6 at two concrete payloads sharing the key default/web. -/
theorem fifo_push_coalesces_witness :
    ((FIFO.empty.push svcExternal).push svcExternal2).queue.length = 1
    ∧ ((FIFO.empty.push svcExternal).push svcExternal2).pop =
        some (svcExternal2, FIFO.empty)
    ∧ FIFO.empty.pop = none :=
  fifo_push_coalesces svcExternal svcExternal2 (by decide)

/-- The provider check in main (src/main.go lines 171-177): aws and gcp
are accepted and logged; any other flag value panics with the message
unknown provider specified. The error result models the panic. -/
def mainProviderCheck (provider : String) : Except String Unit :=
  if provider == "aws" then Except.ok ()
  else if provider == "gcp" then Except.ok ()
  else Except.error "unknown provider specified"

/-- Claim C7: every provider flag value outside the set containing aws
and gcp is a fatal configuration error at startup — main reaches the
panic branch instead of running with the unknown provider. -/
theorem mainProviderCheck_rejects_unknown (provider : String)
    (ha : provider ≠ "aws") (hg : provider ≠ "gcp") :
    mainProviderCheck provider = Except.error "unknown provider specified" := by
  unfold mainProviderCheck
  have hba : (provider == "aws") = false := by simpa [beq_iff_eq] using ha
  have hbg : (provider == "gcp") = false := by simpa [beq_iff_eq] using hg
  simp [hba, hbg]

/-- Witness for C7 at the provider string azure. -/
theorem mainProviderCheck_rejects_unknown_witness :
    mainProviderCheck "azure" = Except.error "unknown provider specified" :=
  mainProviderCheck_rejects_unknown "azure" (by decide) (by decide)

/-- The notifier notifySlack (src/main.go lines 132-145), modelled up
to the external Slack call: returns the post it attempts — the channel
posted to and the message — or none when the function returns early
because the token flag is empty. -/
def notifySlack (slackToken slackChan : String) (svc : Service) :
    Option (String × String) :=
  if slackToken == "" then none
  else
    some (slackChan,
      "Cool story bro: kube-svc-watch just deleted a public Service ("
        ++ svc.Namespace ++ "/" ++ svc.Name ++ ")! kthxbye.")

/-- Counterexample to claim C8: with a configured token but an empty,
unconfigured channel, notifySlack still attempts a post (to the empty
channel) — the code only guards on the token, so an empty channel does
not silently disable notification as the claim states. -/
theorem notifySlack_empty_channel_cex :
    (notifySlack "xoxb-token" "" svcExternal).isSome = true := by
  decide

/-- Claim C8 amended: if the credential (the slack-token flag) is
empty, invoking the notifier is a silent no-op — no post is attempted
and no error is produced; an empty channel alone does not disable
notification. -/
theorem notifySlack_empty_token_noop (slackChan : String) (svc : Service) :
    notifySlack "" slackChan svc = none := by
  simp [notifySlack]

/-- Go fmt %v formatting of a bool value. -/
def boolFormat (b : Bool) : String := if b then "true" else "false"

/-- One emitted metric sample: the gauge value and the label values in
the order declared by svcInfo (src/main.go lines 37-47): namespace,
name, type, internal. -/
structure Metric where
  value : Nat
  labels : List String
deriving DecidableEq

/-- collectSvc (src/main.go lines 57-66): emit one gauge sample of
value 1 labeled with the namespace, name, type and the freshly
computed classifier result of the given service. -/
def collectSvc (provider : String) (svc : Service) : Metric :=
  { value := 1,
    labels := [svc.Namespace, svc.Name, svc.Spec.type,
               boolFormat (isInternal provider svc)] }

/-- Collect (src/main.go lines 68-72): emit collectSvc for every
service in the store listing. It is a pure function of the current
store contents — the collector holds no other state, so nothing
persists from one scrape to the next. -/
def Collect (provider : String) (store : List Service) : List Metric :=
  store.map (collectSvc provider)

/-- Claim C9: on each scrape, Collect emits exactly one sample per
service in the mirror store — the output has the same length as the
store, and the sample at every index is the gauge value 1 labeled with
that service's namespace, name, type and a freshly recomputed
isInternal result; Collect takes no state besides the store, so no
counter persists across scrapes. -/
theorem collect_one_gauge_per_service (provider : String) (store : List Service) :
    (Collect provider store).length = store.length
    ∧ ∀ i : Nat, (Collect provider store)[i]? =
        (store[i]?).map (fun svc =>
          { value := 1,
            labels := [svc.Namespace, svc.Name, svc.Spec.type,
                       boolFormat (isInternal provider svc)] }) := by
  refine ⟨by simp [Collect], fun i => ?_⟩
  simp only [Collect, List.getElem?_map]
  cases store[i]? <;> simp [collectSvc]
